import Mathlib

/-!
Verification of the Secret Store Adapter of the JudDesk backend
(src/src-tauri/src/lib.rs).

The adapter exposes three commands — `set_secret`, `get_secret`,
`delete_secret` — that forward to the external `keyring` crate. The host
credential store is external state; it is embedded here as a `Host`
record holding the persisted entries (an association list keyed by the
(service, key) pair) together with fault oracles that say, for each
primitive keyring call, whether the host store fails it and with which
`keyring::Error`. A `none` oracle answer means the host store performs
the primitive normally.
-/

/-- Model of the external keyring crate's `keyring::Error` type (the
variants relevant to this adapter; `NoEntry` is the distinguished
"no such entry" condition, the others are opaque host failures). -/
inductive KeyringError where
  | NoEntry : KeyringError
  | PlatformFailure (msg : String) : KeyringError
  | NoStorageAccess (msg : String) : KeyringError
  | BadEncoding : KeyringError
  | Invalid (attr reason : String) : KeyringError
deriving DecidableEq, Repr

/-- Model of the keyring crate's `Display` implementation for
`keyring::Error`, i.e. the string produced by `err.to_string()`. -/
def KeyringError.toString : KeyringError → String
  | .NoEntry => "No matching entry found in secure storage"
  | .PlatformFailure msg => "Platform secure storage failure: " ++ msg
  | .NoStorageAccess msg => "Could not access platform secure storage: " ++ msg
  | .BadEncoding => "Data cannot be UTF-8 encoded"
  | .Invalid attr reason => "Attribute " ++ attr ++ " is invalid: " ++ reason

/-- A (service, key) pair identifying a credential entry. -/
abbrev SKey := String × String

/-- Lookup of a (service, key) pair in the persisted entries. -/
def storeLookup : List (SKey × String) → SKey → Option String
  | [], _ => none
  | (k, v) :: rest, q => if q = k then some v else storeLookup rest q

/-- Removal of every entry for a (service, key) pair. -/
def storeRemove : List (SKey × String) → SKey → List (SKey × String)
  | [], _ => []
  | (k, v) :: rest, q =>
    if q = k then storeRemove rest q else (k, v) :: storeRemove rest q

/-- Insertion of a value for a (service, key) pair, replacing any prior
value for that pair. -/
def storeInsert (l : List (SKey × String)) (q : SKey) (v : String) :
    List (SKey × String) :=
  (q, v) :: storeRemove l q

/-- The host operating system's credential store, as seen by the adapter:
the persisted entries plus fault oracles for the four keyring primitives
used by the code (`Entry::new`, `get_password`, `set_password`,
`delete_credential`). An oracle answer of `none` means the host performs
the call normally; `some e` means the host fails it with error `e`. -/
structure Host where
  entryNewErr : String → String → Option KeyringError
  getErr : String → String → Option KeyringError
  setErr : String → String → String → Option KeyringError
  delErr : String → String → Option KeyringError
  store : List (SKey × String)

/-- A keyring entry handle, as produced by `keyring::Entry::new`. -/
structure Entry where
  service : String
  key : String
deriving DecidableEq, Repr

/-- Model of `keyring::Entry::new(&service, &key)`: resolves a handle,
or fails with whatever error the host store reports. -/
def entryNew (h : Host) (service key : String) : Except KeyringError Entry :=
  match h.entryNewErr service key with
  | some e => .error e
  | none => .ok ⟨service, key⟩

/-- Model of `entry.get_password()`: a non-destructive read; reports
`NoEntry` when the pair has no stored value. -/
def Entry.getPassword (e : Entry) (h : Host) : Except KeyringError String :=
  match h.getErr e.service e.key with
  | some err => .error err
  | none =>
    match storeLookup h.store (e.service, e.key) with
    | some v => .ok v
    | none => .error .NoEntry

/-- Model of `entry.set_password(&value)`: writes the value, replacing
any prior value; on a host failure the store is unchanged. -/
def Entry.setPassword (e : Entry) (v : String) (h : Host) :
    Except KeyringError Unit × Host :=
  match h.setErr e.service e.key v with
  | some err => (.error err, h)
  | none =>
    (.ok (), { h with store := storeInsert h.store (e.service, e.key) v })

/-- Model of `entry.delete_credential()`: removes the stored value;
reports `NoEntry` when the pair has no stored value; on a host failure
the store is unchanged. -/
def Entry.deleteCredential (e : Entry) (h : Host) :
    Except KeyringError Unit × Host :=
  match h.delErr e.service e.key with
  | some err => (.error err, h)
  | none =>
    match storeLookup h.store (e.service, e.key) with
    | some _ => (.ok (), { h with store := storeRemove h.store (e.service, e.key) })
    | none => (.error .NoEntry, h)

/-- Embedding of the command `set_secret` (src/src-tauri/src/lib.rs,
lines 4-7): resolve the handle, then write the value; every error is
mapped to its `to_string()`. Returns the result paired with the
resulting host-store state. -/
def set_secret (h : Host) (service key value : String) :
    Except String Unit × Host :=
  match entryNew h service key with
  | .error err => (.error err.toString, h)
  | .ok entry =>
    match entry.setPassword value h with
    | (.ok _, h2) => (.ok (), h2)
    | (.error err, h2) => (.error err.toString, h2)

/-- Embedding of the command `get_secret` (src/src-tauri/src/lib.rs,
lines 10-17): resolve the handle, then read; `NoEntry` from the read is
absorbed into `Ok(None)`, every other error is mapped to its
`to_string()`. -/
def get_secret (h : Host) (service key : String) :
    Except String (Option String) × Host :=
  match entryNew h service key with
  | .error err => (.error err.toString, h)
  | .ok entry =>
    match entry.getPassword h with
    | .ok secret => (.ok (some secret), h)
    | .error .NoEntry => (.ok none, h)
    | .error err => (.error err.toString, h)

/-- Embedding of the command `delete_secret` (src/src-tauri/src/lib.rs,
lines 20-26): resolve the handle, then delete; both success and
`NoEntry` from the delete are mapped to `Ok(())`, every other error is
mapped to its `to_string()`. -/
def delete_secret (h : Host) (service key : String) :
    Except String Unit × Host :=
  match entryNew h service key with
  | .error err => (.error err.toString, h)
  | .ok entry =>
    match entry.deleteCredential h with
    | (.ok _, h2) => (.ok (), h2)
    | (.error .NoEntry, h2) => (.ok (), h2)
    | (.error err, h2) => (.error err.toString, h2)

/-- A fault-free host store holding the given entries. -/
def honestHost (entries : List (SKey × String)) : Host :=
  { entryNewErr := fun _ _ => none
    getErr := fun _ _ => none
    setErr := fun _ _ _ => none
    delErr := fun _ _ => none
    store := entries }

/-- A host store whose write primitive fails with a permission denial,
used to exercise the error paths. -/
def denyHost : Host :=
  { entryNewErr := fun _ _ => none
    getErr := fun _ _ => none
    setErr := fun _ _ _ => some (.PlatformFailure "access denied")
    delErr := fun _ _ => none
    store := [] }

/-- A host store whose handle-resolution primitive itself reports
`NoEntry`, used to exercise the handle-resolution error path. -/
def ghostHost : Host :=
  { entryNewErr := fun _ _ => some .NoEntry
    getErr := fun _ _ => none
    setErr := fun _ _ _ => none
    delErr := fun _ _ => none
    store := [] }

/-- One invocation of the command surface: which command is called and
with which arguments. -/
inductive Call where
  | setCall (service key value : String) : Call
  | getCall (service key : String) : Call
  | delCall (service key : String) : Call

/-- The value returned to the caller by one invocation. -/
inductive CallResult where
  | unitResult (r : Except String Unit) : CallResult
  | valueResult (r : Except String (Option String)) : CallResult

/-- Dispatch of one invocation to the corresponding command. The only
state threaded from one call to the next is the host store itself: the
commands are plain functions with no in-process state of their own. -/
def runCall (h : Host) : Call → CallResult × Host
  | .setCall s k v => (CallResult.unitResult (set_secret h s k v).1, (set_secret h s k v).2)
  | .getCall s k => (CallResult.valueResult (get_secret h s k).1, (get_secret h s k).2)
  | .delCall s k => (CallResult.unitResult (delete_secret h s k).1, (delete_secret h s k).2)

/-- A sequence of invocations, each one seeing exactly the host-store
state left by the previous one. -/
def runCalls (h : Host) : List Call → List CallResult × Host
  | [] => ([], h)
  | c :: cs =>
    ((runCall h c).1 :: (runCalls (runCall h c).2 cs).1,
     (runCalls (runCall h c).2 cs).2)

theorem storeLookup_remove_self (l : List (SKey × String)) (q : SKey) :
    storeLookup (storeRemove l q) q = none := by
  induction l with
  | nil => rfl
  | cons e rest ih =>
    obtain ⟨k, v⟩ := e
    by_cases hq : q = k
    · simpa [storeRemove, hq] using ih
    · simp [storeRemove, storeLookup, hq, ih]

theorem storeLookup_remove_ne (l : List (SKey × String)) (q q' : SKey)
    (hne : q' ≠ q) : storeLookup (storeRemove l q) q' = storeLookup l q' := by
  induction l with
  | nil => rfl
  | cons e rest ih =>
    obtain ⟨k, v⟩ := e
    by_cases hq : q = k
    · subst hq
      simp [storeRemove, storeLookup, hne, ih]
    · by_cases hq' : q' = k
      · simp [storeRemove, storeLookup, hq, hq']
      · simp [storeRemove, storeLookup, hq, hq', ih]

theorem storeLookup_insert_self (l : List (SKey × String)) (q : SKey)
    (v : String) : storeLookup (storeInsert l q v) q = some v := by
  simp [storeInsert, storeLookup]

theorem storeLookup_insert_ne (l : List (SKey × String)) (q q' : SKey)
    (v : String) (hne : q' ≠ q) :
    storeLookup (storeInsert l q v) q' = storeLookup l q' := by
  simp [storeInsert, storeLookup, hne, storeLookup_remove_ne l q q' hne]

/-- Every modelled keyring error message is a non-empty string. -/
theorem KeyringError.toString_length_pos (e : KeyringError) :
    0 < e.toString.length := by
  cases e with
  | NoEntry => decide
  | PlatformFailure msg =>
    have h1 : 0 < ("Platform secure storage failure: ").length := by decide
    simp only [KeyringError.toString, String.length_append]
    omega
  | NoStorageAccess msg =>
    have h1 : 0 < ("Could not access platform secure storage: ").length := by decide
    simp only [KeyringError.toString, String.length_append]
    omega
  | BadEncoding => decide
  | Invalid attr reason =>
    have h1 : 0 < ("Attribute ").length := by decide
    simp only [KeyringError.toString, String.length_append]
    omega

/-- The fault oracles of the host are untouched by `setPassword`:
only the persisted entries change. -/
theorem setPassword_preserves_oracles (entry : Entry) (v : String) (h : Host) :
    ((entry.setPassword v h).2.entryNewErr = h.entryNewErr ∧
     (entry.setPassword v h).2.getErr = h.getErr ∧
     (entry.setPassword v h).2.setErr = h.setErr ∧
     (entry.setPassword v h).2.delErr = h.delErr) := by
  unfold Entry.setPassword
  cases h.setErr entry.service entry.key v <;> simp

/-- The fault oracles of the host are untouched by `deleteCredential`:
only the persisted entries change. -/
theorem deleteCredential_preserves_oracles (entry : Entry) (h : Host) :
    ((entry.deleteCredential h).2.entryNewErr = h.entryNewErr ∧
     (entry.deleteCredential h).2.getErr = h.getErr ∧
     (entry.deleteCredential h).2.setErr = h.setErr ∧
     (entry.deleteCredential h).2.delErr = h.delErr) := by
  unfold Entry.deleteCredential
  cases h.delErr entry.service entry.key with
  | some err => simp
  | none => cases storeLookup h.store (entry.service, entry.key) <;> simp

/-- A successful `set_secret` is exactly one where the host faults
neither the handle resolution nor the write. -/
theorem set_secret_ok_iff (h : Host) (s k v : String) :
    (set_secret h s k v).1 = Except.ok () ↔
      (h.entryNewErr s k = none ∧ h.setErr s k v = none) := by
  cases hne : h.entryNewErr s k <;> cases hse : h.setErr s k v <;>
    simp [set_secret, entryNew, Entry.setPassword, hne, hse]

/-- On a fault-free path, `set_secret` returns success and replaces the
stored value for the pair. -/
theorem set_secret_ok_state (h : Host) (s k v : String)
    (hnew : h.entryNewErr s k = none) (hse : h.setErr s k v = none) :
    set_secret h s k v =
      (Except.ok (), { h with store := storeInsert h.store (s, k) v }) := by
  simp [set_secret, entryNew, Entry.setPassword, hnew, hse]

/-- C1: for every (service, key) pair with no stored entry,
`delete_secret` returns success (Ok with no payload), not an error, and
leaves the host store unchanged: absence of the entry is absorbed as a
successful no-op (the hypotheses say the host store performs the two
primitives normally, so the only condition reported is the absence). -/
theorem delete_secret_absent_is_ok (h : Host) (s k : String)
    (hnew : h.entryNewErr s k = none)
    (hdel : h.delErr s k = none)
    (habs : storeLookup h.store (s, k) = none) :
    delete_secret h s k = (Except.ok (), h) := by
  simp [delete_secret, entryNew, Entry.deleteCredential, hnew, hdel, habs]

/-- Witness for C1: deleting from an empty fault-free host store
succeeds. -/
theorem delete_secret_absent_is_ok_witness :
    delete_secret (honestHost []) "jurisdesk" "api-token" =
      (Except.ok (), honestHost []) :=
  delete_secret_absent_is_ok (honestHost []) "jurisdesk" "api-token" rfl rfl rfl

/-- C2: for every (service, key) pair, `get_secret` returns `Ok none`
when no entry is stored and `Ok (some v)` when the entry holds `v`; in
both cases the host store is untouched (the hypotheses say the host
store performs the two primitives normally). -/
theorem get_secret_absent_or_present (h : Host) (s k : String)
    (hnew : h.entryNewErr s k = none)
    (hget : h.getErr s k = none) :
    (storeLookup h.store (s, k) = none →
      get_secret h s k = (Except.ok none, h)) ∧
    (∀ v, storeLookup h.store (s, k) = some v →
      get_secret h s k = (Except.ok (some v), h)) := by
  constructor
  · intro habs
    simp [get_secret, entryNew, Entry.getPassword, hnew, hget, habs]
  · intro v hv
    simp [get_secret, entryNew, Entry.getPassword, hnew, hget, hv]

/-- Witness for C2: reading an absent pair yields `Ok none`, reading a
stored pair yields its value. -/
theorem get_secret_absent_or_present_witness :
    get_secret (honestHost []) "jurisdesk" "api-token" =
      (Except.ok none, honestHost []) ∧
    get_secret (honestHost [(("jurisdesk", "api-token"), "abc123")])
        "jurisdesk" "api-token" =
      (Except.ok (some "abc123"),
        honestHost [(("jurisdesk", "api-token"), "abc123")]) :=
  ⟨(get_secret_absent_or_present (honestHost []) "jurisdesk" "api-token"
      rfl rfl).1 rfl,
   (get_secret_absent_or_present
      (honestHost [(("jurisdesk", "api-token"), "abc123")])
      "jurisdesk" "api-token" rfl rfl).2 "abc123" rfl⟩

/-- C3: a successful `set_secret` followed by `get_secret` on the same
pair returns `Ok (some value)` (the extra hypothesis says the host store
performs the read normally). -/
theorem set_then_get (h : Host) (s k v : String)
    (hset : (set_secret h s k v).1 = Except.ok ())
    (hget : h.getErr s k = none) :
    (get_secret (set_secret h s k v).2 s k).1 = Except.ok (some v) := by
  obtain ⟨hnew, hse⟩ := (set_secret_ok_iff h s k v).mp hset
  rw [set_secret_ok_state h s k v hnew hse]
  simp [get_secret, entryNew, Entry.getPassword, hnew, hget,
    storeLookup_insert_self]

/-- Witness for C3 on a concrete store. -/
theorem set_then_get_witness :
    (get_secret (set_secret (honestHost []) "jurisdesk" "api-token"
      "abc123").2 "jurisdesk" "api-token").1 = Except.ok (some "abc123") :=
  set_then_get (honestHost []) "jurisdesk" "api-token" "abc123" rfl rfl

/-- C4: after two successful writes to the same pair the stored value is
the second one — at most one value is associated with the pair and the
second `set_secret` overwrites the first — so `get_secret` returns
`Ok (some v2)` (the extra hypothesis says the host store performs the
read normally). -/
theorem set_set_get_overwrites (h : Host) (s k v1 v2 : String)
    (hset1 : (set_secret h s k v1).1 = Except.ok ())
    (hset2 : (set_secret (set_secret h s k v1).2 s k v2).1 = Except.ok ())
    (hget : h.getErr s k = none) :
    storeLookup (set_secret (set_secret h s k v1).2 s k v2).2.store (s, k) =
      some v2 ∧
    (get_secret (set_secret (set_secret h s k v1).2 s k v2).2 s k).1 =
      Except.ok (some v2) := by
  obtain ⟨hnew1, hse1⟩ := (set_secret_ok_iff h s k v1).mp hset1
  rw [set_secret_ok_state h s k v1 hnew1 hse1] at hset2 ⊢
  obtain ⟨hnew2, hse2⟩ := (set_secret_ok_iff _ s k v2).mp hset2
  rw [set_secret_ok_state _ s k v2 hnew2 hse2]
  refine ⟨storeLookup_insert_self _ _ _, ?_⟩
  simp [get_secret, entryNew, Entry.getPassword, hnew1, hget,
    storeLookup_insert_self]

/-- Witness for C4 on a concrete store. -/
theorem set_set_get_overwrites_witness :
    storeLookup (set_secret (set_secret (honestHost []) "jurisdesk"
        "api-token" "v1").2 "jurisdesk" "api-token" "v2").2.store
      ("jurisdesk", "api-token") = some "v2" ∧
    (get_secret (set_secret (set_secret (honestHost []) "jurisdesk"
        "api-token" "v1").2 "jurisdesk" "api-token" "v2").2
      "jurisdesk" "api-token").1 = Except.ok (some "v2") :=
  set_set_get_overwrites (honestHost []) "jurisdesk" "api-token" "v1" "v2"
    rfl rfl rfl

/-- C5: a successful `set_secret` followed by a `delete_secret` that the
host performs normally succeeds and leaves the pair absent, so a
subsequent `get_secret` returns `Ok none` (the extra hypotheses say the
host store performs the delete and the read normally). -/
theorem set_delete_get_none (h : Host) (s k v : String)
    (hset : (set_secret h s k v).1 = Except.ok ())
    (hdel : h.delErr s k = none)
    (hget : h.getErr s k = none) :
    (delete_secret (set_secret h s k v).2 s k).1 = Except.ok () ∧
    storeLookup (delete_secret (set_secret h s k v).2 s k).2.store (s, k) =
      none ∧
    (get_secret (delete_secret (set_secret h s k v).2 s k).2 s k).1 =
      Except.ok none := by
  obtain ⟨hnew, hse⟩ := (set_secret_ok_iff h s k v).mp hset
  rw [set_secret_ok_state h s k v hnew hse]
  simp [delete_secret, entryNew, Entry.deleteCredential, hnew, hdel,
    storeLookup_insert_self, get_secret, Entry.getPassword, hget,
    storeLookup_remove_self]

/-- Witness for C5 on a concrete store. -/
theorem set_delete_get_none_witness :
    (delete_secret (set_secret (honestHost []) "jurisdesk" "api-token"
        "abc123").2 "jurisdesk" "api-token").1 = Except.ok () ∧
    storeLookup (delete_secret (set_secret (honestHost []) "jurisdesk"
        "api-token" "abc123").2 "jurisdesk" "api-token").2.store
      ("jurisdesk", "api-token") = none ∧
    (get_secret (delete_secret (set_secret (honestHost []) "jurisdesk"
        "api-token" "abc123").2 "jurisdesk" "api-token").2
      "jurisdesk" "api-token").1 = Except.ok none :=
  set_delete_get_none (honestHost []) "jurisdesk" "api-token" "abc123"
    rfl rfl rfl

/-- C6: for each of the three commands, every host-store failure other
than the absorbed not-found condition reaches the caller as `Err` whose
payload is the single string produced by the error's `to_string()` — the
`Except String` result type carries no structured code, only that
message. -/
theorem errors_flattened_to_string (h : Host) (s k v : String)
    (e : KeyringError) :
    (h.entryNewErr s k = some e →
      (set_secret h s k v).1 = Except.error e.toString ∧
      (get_secret h s k).1 = Except.error e.toString ∧
      (delete_secret h s k).1 = Except.error e.toString) ∧
    (h.entryNewErr s k = none →
      (h.setErr s k v = some e →
        (set_secret h s k v).1 = Except.error e.toString) ∧
      (h.getErr s k = some e → e ≠ KeyringError.NoEntry →
        (get_secret h s k).1 = Except.error e.toString) ∧
      (h.delErr s k = some e → e ≠ KeyringError.NoEntry →
        (delete_secret h s k).1 = Except.error e.toString)) := by
  constructor
  · intro hne
    refine ⟨?_, ?_, ?_⟩ <;>
      simp [set_secret, get_secret, delete_secret, entryNew, hne]
  · intro hne
    refine ⟨?_, ?_, ?_⟩
    · intro hse
      simp [set_secret, entryNew, Entry.setPassword, hne, hse]
    · intro hge hnoe
      cases e <;> first
        | exact absurd rfl hnoe
        | simp [get_secret, entryNew, Entry.getPassword, hne, hge]
    · intro hde hnoe
      cases e <;> first
        | exact absurd rfl hnoe
        | simp [delete_secret, entryNew, Entry.deleteCredential, hne, hde]

/-- Witness for C6: a permission denial on the write reaches the caller
as the error's display string. -/
theorem errors_flattened_to_string_witness :
    (set_secret denyHost "jurisdesk" "api-token" "abc123").1 =
      Except.error (KeyringError.PlatformFailure "access denied").toString :=
  ((errors_flattened_to_string denyHost "jurisdesk" "api-token" "abc123"
    (.PlatformFailure "access denied")).2 rfl).1 rfl

/-- C7: when the host store fails the `set_secret` call — at handle
resolution or at the write itself, e.g. with a permission denial — the
caller receives `Err` with a non-empty error string and the host store
is left exactly as it was: no entry is created. -/
theorem set_secret_fault_reports_error (h : Host) (s k v : String)
    (e : KeyringError)
    (hfault : h.entryNewErr s k = some e ∨
      (h.entryNewErr s k = none ∧ h.setErr s k v = some e)) :
    (set_secret h s k v).1 = Except.error e.toString ∧
    0 < e.toString.length ∧
    (set_secret h s k v).2 = h := by
  rcases hfault with hne | ⟨hne, hse⟩
  · refine ⟨?_, KeyringError.toString_length_pos e, ?_⟩ <;>
      simp [set_secret, entryNew, hne]
  · refine ⟨?_, KeyringError.toString_length_pos e, ?_⟩ <;>
      simp [set_secret, entryNew, Entry.setPassword, hne, hse]

/-- Witness for C7: a permission denial on the write yields a non-empty
error string and leaves the host store unchanged. -/
theorem set_secret_fault_reports_error_witness :
    (set_secret denyHost "jurisdesk" "api-token" "abc123").1 =
      Except.error (KeyringError.PlatformFailure "access denied").toString ∧
    0 < (KeyringError.PlatformFailure "access denied").toString.length ∧
    (set_secret denyHost "jurisdesk" "api-token" "abc123").2 = denyHost :=
  set_secret_fault_reports_error denyHost "jurisdesk" "api-token" "abc123"
    (.PlatformFailure "access denied") (Or.inr ⟨rfl, rfl⟩)

/-- C8: the not-found-to-success mapping applies only to the read/delete
step, not to handle resolution: a `NoEntry` error from `Entry::new` is
surfaced by `get_secret` and `delete_secret` as `Err` carrying its
display string, while a `NoEntry` from `get_password` is absorbed into
`Ok none` and a `NoEntry` from `delete_credential` into `Ok ()`. -/
theorem entryNew_noentry_not_absorbed (h : Host) (s k : String) :
    (h.entryNewErr s k = some KeyringError.NoEntry →
      (get_secret h s k).1 = Except.error KeyringError.NoEntry.toString ∧
      (delete_secret h s k).1 = Except.error KeyringError.NoEntry.toString) ∧
    (h.entryNewErr s k = none →
      (h.getErr s k = some KeyringError.NoEntry →
        (get_secret h s k).1 = Except.ok none) ∧
      (h.delErr s k = some KeyringError.NoEntry →
        (delete_secret h s k).1 = Except.ok ())) := by
  constructor
  · intro hne
    constructor <;> simp [get_secret, delete_secret, entryNew, hne]
  · intro hne
    constructor
    · intro hg
      simp [get_secret, entryNew, Entry.getPassword, hne, hg]
    · intro hd
      simp [delete_secret, entryNew, Entry.deleteCredential, hne, hd]

/-- Witness for C8: a host that reports `NoEntry` at handle resolution
makes both commands fail with the error string rather than succeed. -/
theorem entryNew_noentry_not_absorbed_witness :
    (get_secret ghostHost "jurisdesk" "api-token").1 =
      Except.error KeyringError.NoEntry.toString ∧
    (delete_secret ghostHost "jurisdesk" "api-token").1 =
      Except.error KeyringError.NoEntry.toString :=
  (entryNew_noentry_not_absorbed ghostHost "jurisdesk" "api-token").1 rfl

/-- C9: `get_secret` never modifies the host store, and for every pair
(s2, k2) different from the addressed pair (s, k), both `set_secret` and
`delete_secret` leave the value (or absence) stored for (s2, k2)
unchanged, on every path including the host-fault ones. -/
theorem frame_properties (h : Host) (s k s2 k2 v : String)
    (hne : (s2, k2) ≠ (s, k)) :
    (get_secret h s k).2 = h ∧
    storeLookup (set_secret h s k v).2.store (s2, k2) =
      storeLookup h.store (s2, k2) ∧
    storeLookup (delete_secret h s k).2.store (s2, k2) =
      storeLookup h.store (s2, k2) := by
  refine ⟨?_, ?_, ?_⟩
  · cases hn : h.entryNewErr s k with
    | some e => simp [get_secret, entryNew, hn]
    | none =>
      cases hg : h.getErr s k with
      | some err =>
        cases err <;> simp [get_secret, entryNew, Entry.getPassword, hn, hg]
      | none =>
        cases hl : storeLookup h.store (s, k) <;>
          simp [get_secret, entryNew, Entry.getPassword, hn, hg, hl]
  · cases hn : h.entryNewErr s k with
    | some e => simp [set_secret, entryNew, hn]
    | none =>
      cases hs : h.setErr s k v with
      | some err => simp [set_secret, entryNew, Entry.setPassword, hn, hs]
      | none =>
        simp [set_secret, entryNew, Entry.setPassword, hn, hs,
          storeLookup_insert_ne h.store (s, k) (s2, k2) v hne]
  · cases hn : h.entryNewErr s k with
    | some e => simp [delete_secret, entryNew, hn]
    | none =>
      cases hd : h.delErr s k with
      | some err =>
        cases err <;>
          simp [delete_secret, entryNew, Entry.deleteCredential, hn, hd]
      | none =>
        cases hl : storeLookup h.store (s, k) with
        | some w =>
          simp [delete_secret, entryNew, Entry.deleteCredential, hn, hd, hl,
            storeLookup_remove_ne h.store (s, k) (s2, k2) hne]
        | none =>
          simp [delete_secret, entryNew, Entry.deleteCredential, hn, hd, hl]

/-- Witness for C9: operations on ("jurisdesk", "api-token") do not
disturb the entry stored for ("other", "pair"). -/
theorem frame_properties_witness :
    (get_secret (honestHost [(("other", "pair"), "w")]) "jurisdesk"
      "api-token").2 = honestHost [(("other", "pair"), "w")] ∧
    storeLookup (set_secret (honestHost [(("other", "pair"), "w")])
        "jurisdesk" "api-token" "abc123").2.store ("other", "pair") =
      storeLookup (honestHost [(("other", "pair"), "w")]).store
        ("other", "pair") ∧
    storeLookup (delete_secret (honestHost [(("other", "pair"), "w")])
        "jurisdesk" "api-token").2.store ("other", "pair") =
      storeLookup (honestHost [(("other", "pair"), "w")]).store
        ("other", "pair") :=
  frame_properties (honestHost [(("other", "pair"), "w")]) "jurisdesk"
    "api-token" "other" "pair" "abc123" (by decide)

/-- C10: the commands carry no in-process state between calls — in the
embedding each command is a plain function of its arguments and the host
store, so it is deterministic by construction, and a sequence of calls
can be split at any point and resumed from the host-store state alone:
the history of earlier calls influences later ones only through that
state. -/
theorem runCalls_stateless (h : Host) (cs1 cs2 : List Call) :
    runCalls h (cs1 ++ cs2) =
      ((runCalls h cs1).1 ++ (runCalls (runCalls h cs1).2 cs2).1,
       (runCalls (runCalls h cs1).2 cs2).2) := by
  induction cs1 generalizing h with
  | nil => simp [runCalls]
  | cons c cs ih => simp [runCalls, ih]
